import Mathlib

/-!
Verification of the RFP response platform backend (Python sources under
backend/app) through a shallow embedding in Lean 4.  Pure helpers are
translated as Lean functions; database work is modelled as explicit state
(lists of rows) plus an event trace; code that can raise returns Except.
External boundaries (the bcrypt library, the RAG document processor, file
text extraction) are parameters of the embedded operations.
-/

namespace RfpPlatform

/-! ## Status enumerations (app/models/company_document.py, extracted_question.py) -/

/-- Processing status enum for documents and RFPs. -/
inductive ProcessingStatus
  | PENDING
  | PROCESSING
  | COMPLETED
  | FAILED
deriving DecidableEq, Repr

/-- Answer status enum for extracted questions. -/
inductive AnswerStatus
  | PENDING
  | PROCESSING
  | ANSWERED
  | FAILED
deriving DecidableEq, Repr

/-- FastAPI HTTPException: a status code plus a detail message. -/
structure HTTPException where
  status_code : Nat
  detail : String
deriving DecidableEq, Repr

/-! ## Security utilities (app/utils/security.py)

The bcrypt library itself is external.  Its documented behaviour, which the
embedding models, is: checkpw computes the match boolean for a well-formed
stored hash and raises ValueError ("Invalid salt") when the stored hash is
not a well-formed bcrypt hash.  The match computation on well-formed hashes
is abstracted as a parameter `m`. -/

/-- Well-formedness of a stored bcrypt hash as the bcrypt library checks it:
a 60-character encoding beginning with the "$2" version marker. -/
def isWellFormedBcryptHash (s : String) : Bool :=
  s.length == 60 && s.toList.take 2 == ['$', '2']

/-- Model of the external bcrypt library's checkpw: result of the match on a
well-formed stored hash, ValueError on a malformed one. -/
def bcrypt_checkpw (m : String → String → Bool) (password hashed : String) :
    Except String Bool :=
  if isWellFormedBcryptHash hashed then .ok (m password hashed)
  else .error "Invalid salt"

/-- verify_api_key (app/utils/security.py lines 26-35): the body is the single
statement `return bcrypt.checkpw(plain.encode, hashed.encode)`; there is no
try/except, so whatever checkpw raises propagates to the caller. -/
def verify_api_key (m : String → String → Bool)
    (plain_api_key hashed_api_key : String) : Except String Bool :=
  bcrypt_checkpw m plain_api_key hashed_api_key

/-! ## File storage (app/utils/file_storage.py) -/

/-- Allowed declared content types (module constant ALLOWED_MIME_TYPES). -/
def ALLOWED_MIME_TYPES : List String :=
  ["application/pdf",
   "application/vnd.openxmlformats-officedocument.wordprocessingml.document",
   "application/msword"]

/-- Allowed filename extensions (module constant ALLOWED_EXTENSIONS). -/
def ALLOWED_EXTENSIONS : List String := [".pdf", ".docx", ".doc"]

/-- Maximum file size in bytes (module constant MAX_FILE_SIZE = 10*1024*1024). -/
def MAX_FILE_SIZE : Nat := 10 * 1024 * 1024

/-- A FastAPI UploadFile as the storage layer sees it: declared filename and
content type (both optional in FastAPI) and the byte content. -/
structure UploadFile where
  filename : Option String
  content_type : Option String
  content : List Nat
deriving DecidableEq, Repr

/-- Index of the last occurrence of a character in a character list. -/
def lastIdxOf (c : Char) : List Char → Option Nat
  | [] => none
  | x :: xs =>
    match lastIdxOf c xs with
    | some i => some (i + 1)
    | none => if x = c then some 0 else none

/-- Split of a character list at every occurrence of a separator character
(the semantics of Python str.split with a one-character separator). -/
def splitOnChar (c : Char) : List Char → List (List Char)
  | [] => [[]]
  | x :: xs =>
    match splitOnChar c xs with
    | [] => [[x]]
    | y :: ys => if x = c then [] :: y :: ys else (x :: y) :: ys

/-- Python str.split with a one-character separator, on strings. -/
def strSplitOn (c : Char) (s : String) : List String :=
  (splitOnChar c s.toList).map String.mk

/-- Python str.lower, restricted to ASCII case mapping. -/
def strToLower (s : String) : String :=
  String.mk (s.toList.map Char.toLower)

/-- Python pathlib suffix: the extension of the final path component,
including the leading dot; empty when the component has no internal dot. -/
def pathSuffix (p : String) : String :=
  let name := (strSplitOn '/' p).getLastD ""
  let cs := name.toList
  match lastIdxOf '.' cs with
  | none => ""
  | some i => if 0 < i ∧ i < cs.length - 1 then String.mk (cs.drop i) else ""

/-- FileStorage._validate_file_type: the declared content type must be in the
allow-list, and, when a filename is present, its lower-cased extension must be
in the extension allow-list; either mismatch raises a 400. -/
def validate_file_type (file : UploadFile) : Except HTTPException Unit :=
  if !(match file.content_type with
       | some ct => ALLOWED_MIME_TYPES.contains ct
       | none => false) then
    .error ⟨400, "File type not allowed. Allowed types: PDF, DOCX, DOC"⟩
  else
    match file.filename with
    | some fn =>
      if !ALLOWED_EXTENSIONS.contains (strToLower (pathSuffix fn)) then
        .error ⟨400, "File extension not allowed. Allowed extensions: .pdf, .docx, .doc"⟩
      else .ok ()
    | none => .ok ()

/-- FileStorage._validate_file_size: raises a 400 when the size strictly
exceeds MAX_FILE_SIZE. -/
def validate_file_size (file_size : Nat) : Except HTTPException Unit :=
  if file_size > MAX_FILE_SIZE then
    .error ⟨400, "File too large. Maximum size: 10MB"⟩
  else .ok ()

/-- FileStorage.save_file: reads the whole content to measure its size,
validates size first, then type, then writes the bytes to
uploads/company_id/doc_id+extension and returns the path and size. -/
def save_file (file : UploadFile) (company_id doc_id : String) :
    Except HTTPException (String × Nat) :=
  let file_size := file.content.length
  match validate_file_size file_size with
  | .error e => .error e
  | .ok _ =>
    match validate_file_type file with
    | .error e => .error e
    | .ok _ =>
      let file_extension :=
        match file.filename with
        | some fn => strToLower (pathSuffix fn)
        | none => ""
      let secure_filename := doc_id ++ file_extension
      let file_path := "uploads/" ++ company_id ++ "/" ++ secure_filename
      .ok (file_path, file_size)

/-! ## Document rows and database events (app/models, app/services/document_service.py)

Database work is modelled as pure state (row lists and record updates) plus a
trace of the externally visible steps, in the order the code performs them. -/

/-- A CompanyDocument row, restricted to the columns the verified operations
read or write.  Timestamps are abstract instants (Nat). -/
structure CompanyDocument where
  id : Nat
  doc_id : String
  company_id : String
  filename : String
  file_type : String
  file_size : Nat
  file_path : String
  processing_status : ProcessingStatus
  processing_started_at : Option Nat
  processing_completed_at : Option Nat
  chunk_count : Nat
  error_message : Option String
deriving DecidableEq, Repr

/-- A DocumentChunk row. -/
structure DocumentChunk where
  document_id : Nat
  chunk_index : Nat
  chunk_id : String
deriving DecidableEq, Repr

/-- Externally visible steps of the document-service operations, in program
order: row insertion, flush, chunk-table delete, field resets, the status
update, commit, the Celery enqueue, and the response. -/
inductive DbEvent
  | addDocument (st : ProcessingStatus)
  | flush
  | deleteChunks
  | resetChunkCount
  | clearErrorMessage
  | setStatus (st : ProcessingStatus)
  | commit
  | enqueueProcessTask
  | respond (st : ProcessingStatus)
deriving DecidableEq, Repr

/-- Response body of the upload route (schemas/documents.py). -/
structure DocumentUploadResponse where
  docId : String
  filename : String
  status : ProcessingStatus
deriving DecidableEq, Repr

/-- file_type derivation in DocumentService.upload_document: the part after
the final dot of the filename, lower-cased; "unknown" when the filename is
absent, empty, or has no dot. -/
def fileTypeOf : Option String → String
  | some fn =>
    if fn ≠ "" ∧ fn.toList.contains '.' then strToLower ((strSplitOn '.' fn).getLastD "")
    else "unknown"
  | none => "unknown"

namespace DocumentService

/-- DocumentService.upload_document (document_service.py lines 44-143): saves
the file (validation errors propagate and nothing is written), inserts the
row with status PENDING, flushes, immediately sets PROCESSING with a start
timestamp, commits, enqueues the processing task, and responds PROCESSING.
Returns the new table, the event trace, and the response. -/
def upload_document (db : List CompanyDocument) (company_id : String)
    (file : UploadFile) (doc_id : String) (new_pk : Nat) (now : Nat) :
    List CompanyDocument × List DbEvent × Except HTTPException DocumentUploadResponse :=
  match save_file file company_id doc_id with
  | .error e => (db, [], .error e)
  | .ok (file_path, file_size) =>
    let file_type := fileTypeOf file.filename
    let document : CompanyDocument :=
      { id := new_pk
        doc_id := doc_id
        company_id := company_id
        filename :=
          match file.filename with
          | some fn => if fn ≠ "" then fn else "document." ++ file_type
          | none => "document." ++ file_type
        file_type := file_type
        file_size := file_size
        file_path := file_path
        processing_status := ProcessingStatus.PENDING
        processing_started_at := none
        processing_completed_at := none
        chunk_count := 0
        error_message := none }
    let document :=
      { document with
          processing_status := ProcessingStatus.PROCESSING
          processing_started_at := some now }
    (db ++ [document],
     [DbEvent.addDocument ProcessingStatus.PENDING, DbEvent.flush,
      DbEvent.setStatus ProcessingStatus.PROCESSING, DbEvent.commit,
      DbEvent.enqueueProcessTask, DbEvent.respond ProcessingStatus.PROCESSING],
     .ok ⟨doc_id, document.filename, ProcessingStatus.PROCESSING⟩)

/-- DocumentService.process_document (document_service.py lines 347-452), on a
document found for the company: if it is already PROCESSING, return the
current status with no writes; otherwise, when the status is COMPLETED or
FAILED, delete the document's chunk rows, reset chunk_count to 0 and clear
error_message when present, then enqueue the Celery task, then set PROCESSING
with a fresh start timestamp, commit, and return the refreshed status. -/
def process_document (document : CompanyDocument) (chunks : List DocumentChunk)
    (now : Nat) :
    CompanyDocument × List DocumentChunk × List DbEvent × ProcessingStatus :=
  if document.processing_status = ProcessingStatus.PROCESSING then
    (document, chunks, [DbEvent.respond document.processing_status],
     document.processing_status)
  else
    let cleared :=
      if document.processing_status = ProcessingStatus.COMPLETED ∨
         document.processing_status = ProcessingStatus.FAILED then
        let chunks' := chunks.filter (fun c => c.document_id ≠ document.id)
        let document' := { document with chunk_count := 0 }
        if document'.error_message.isSome then
          ({ document' with error_message := none }, chunks',
           [DbEvent.deleteChunks, DbEvent.resetChunkCount, DbEvent.clearErrorMessage])
        else
          (document', chunks', [DbEvent.deleteChunks, DbEvent.resetChunkCount])
      else (document, chunks, ([] : List DbEvent))
    let document := cleared.1
    let document :=
      { document with
          processing_status := ProcessingStatus.PROCESSING
          processing_started_at := some now }
    (document, cleared.2.1,
     cleared.2.2 ++
       [DbEvent.enqueueProcessTask, DbEvent.setStatus ProcessingStatus.PROCESSING,
        DbEvent.commit, DbEvent.respond ProcessingStatus.PROCESSING],
     ProcessingStatus.PROCESSING)

end DocumentService

/-! ## Authentication service (app/services/auth_service.py) -/

/-- A Company row, restricted to the columns register_company touches. -/
structure Company where
  id : Nat
  name : String
  api_key : String
  is_active : Bool
deriving DecidableEq, Repr

/-- Response data of the register route (schemas/auth.py). -/
structure CompanyRegisterData where
  companyId : Nat
  companyName : String
  apiKey : String
deriving DecidableEq, Repr

namespace AuthService

/-- AuthService._get_company_by_name: first company row with that name. -/
def get_company_by_name (db : List Company) (company_name : String) :
    Option Company :=
  db.find? (fun c => c.name = company_name)

/-- AuthService.register_company (auth_service.py lines 29-97): a 409 with no
write when the name already exists; otherwise a freshly generated key is
hashed and a new active Company is inserted, and the plaintext key is
returned.  The key generator and the bcrypt hashing are external inputs,
passed as the fresh token and the hash function. -/
def register_company (hash_api_key : String → String) (db : List Company)
    (companyName : String) (api_key : String) (new_pk : Nat) :
    List Company × Except HTTPException CompanyRegisterData :=
  match get_company_by_name db companyName with
  | some _ => (db, .error ⟨409, "Company with this name already exists"⟩)
  | none =>
    let new_company : Company :=
      { id := new_pk
        name := companyName
        api_key := hash_api_key api_key
        is_active := true }
    (db ++ [new_company], .ok ⟨new_pk, companyName, api_key⟩)

end AuthService

/-! ## Document Processing Job (app/tasks/document_tasks.py)

The job is a Celery task process_document wrapping _process_document_async.
The RAG indexing boundary may raise, so it enters the model as an
Except-valued input; text extraction (extract_text_from_file) catches every
exception internally and returns an optional string, so it enters as an
Option-valued input. -/

/-- Structured result dictionary returned by _process_document_async. -/
inductive AsyncResult
  | errorResult (message : String)
  | success (chunk_count : Nat) (chunk_ids : List String)
deriving DecidableEq, Repr

/-- Outcome of the Celery task process_document: a returned result, or a
retry request raised because the inner computation raised. -/
inductive TaskOutcome
  | completed (r : AsyncResult)
  | retry (err : String)
deriving DecidableEq, Repr

namespace DocumentTasks

/-- The async body _process_document_async (document_tasks.py lines 62-209): on a missing
document, returns the not-found error result with no writes; otherwise marks
PROCESSING and commits, fails the document (FAILED plus error text, no raise)
when extraction produced no text, and on indexing success bulk-inserts one
DocumentChunk per returned id with chunk_index = its list position, sets
chunk_count, COMPLETED and the end timestamp.  When indexing raises, the
session is rolled back, the document is marked FAILED with the error text in
a separate transaction, and the exception is re-raised. -/
def process_document_async (document : Option CompanyDocument)
    (extracted_text : Option String)
    (index_document : Except String (List String)) (now : Nat) :
    Option CompanyDocument × List DocumentChunk × Except String AsyncResult :=
  match document with
  | none => (none, [], .ok (AsyncResult.errorResult "Document not found"))
  | some document =>
    let document :=
      { document with
          processing_status := ProcessingStatus.PROCESSING
          processing_started_at := some now }
    if extracted_text = none ∨ extracted_text = some "" then
      (some { document with
                processing_status := ProcessingStatus.FAILED
                error_message := some "Failed to extract text from document"
                processing_completed_at := some now },
       [], .ok (AsyncResult.errorResult "Text extraction failed"))
    else
      match index_document with
      | .error e =>
        (some { document with
                  processing_status := ProcessingStatus.FAILED
                  error_message := some e
                  processing_completed_at := some now },
         [], .error e)
      | .ok chunk_ids =>
        let chunks_to_add :=
          chunk_ids.enum.map (fun p =>
            ({ document_id := document.id
               chunk_index := p.1
               chunk_id := p.2 } : DocumentChunk))
        (some { document with
                  chunk_count := chunk_ids.length
                  processing_status := ProcessingStatus.COMPLETED
                  processing_completed_at := some now },
         chunks_to_add,
         .ok (AsyncResult.success chunk_ids.length chunk_ids))

/-- The Celery task process_document (document_tasks.py lines 31-59): runs the
async body; a raised exception is converted into a retry request
(self.retry), a returned result is passed through without retrying. -/
def process_document (document : Option CompanyDocument)
    (extracted_text : Option String)
    (index_document : Except String (List String)) (now : Nat) :
    Option CompanyDocument × List DocumentChunk × TaskOutcome :=
  let r := process_document_async document extracted_text index_document now
  (r.1, r.2.1,
   match r.2.2 with
   | .ok a => TaskOutcome.completed a
   | .error e => TaskOutcome.retry e)

end DocumentTasks

/-! ## RFP processing pipeline (app/services/rfp_service.py)

RfpService.process_rfp (lines 178-265) and its synchronous twin
process_rfp_sync (lines 267-352) run the same algorithm; the embedding is the
one shared algorithm.  The external inputs are the stored file's text
(extract_text may raise), the RAG question-extraction and answering calls
(both may raise), and the chunk-to-document lookup used for match rows. -/

/-- An RfpDocument row, restricted to the columns the pipeline touches. -/
structure RfpDocument where
  id : Nat
  rfp_id : String
  company_id : String
  processing_status : ProcessingStatus
  extraction_score : Option Rat
  questions_count : Option Nat
  processing_started_at : Option Nat
  processing_completed_at : Option Nat
  error_message : Option String
deriving DecidableEq, Repr

/-- An ExtractedQuestion row. -/
structure ExtractedQuestion where
  rfp_document_id : Nat
  question_number : Nat
  question_text : String
  question_type : String
  generated_answer : Option String
  confidence_score : Option Rat
  answer_status : AnswerStatus
deriving DecidableEq, Repr

/-- A QuestionDocumentMatch row (question identified by its ordinal). -/
structure QuestionDocumentMatch where
  question_number : Nat
  document_id : Nat
  relevance_score : Rat
  chunk_ids : List String
deriving DecidableEq, Repr

/-- Result of the RAG boundary's extract_questions call. -/
structure ExtractionResult where
  questions : List String
  confidence_score : Rat
deriving DecidableEq, Repr

/-- Result of the RAG boundary's answer_question call. -/
structure AnswerResult where
  answer : String
  confidence_score : Rat
  chunk_ids : List String
deriving DecidableEq, Repr

/-- External boundary of the RFP pipeline: the stored file's extracted text,
the question-extraction call on that text, the per-question answering call
(question text, company id), and the lookup of the company document owning a
chunk id.  Calls that can raise are Except-valued. -/
structure RfpEnv where
  extract_text : Except String String
  extract_questions : String → Except String ExtractionResult
  answer_question : String → String → Except String AnswerResult
  find_document_for_chunk : String → Option Nat
deriving Inhabited

namespace RfpService

/-- One iteration of the per-question loop: create the question row with
status PROCESSING, call the answering boundary inside try/except; on success
store answer, confidence and status ANSWERED and build one match row per
contributing chunk id that resolves to a company document; on any exception
set status FAILED and create no matches. -/
def answer_one (env : RfpEnv) (company_id : String) (rfp_document_id i : Nat)
    (question_text : String) :
    ExtractedQuestion × List QuestionDocumentMatch :=
  let question : ExtractedQuestion :=
    { rfp_document_id := rfp_document_id
      question_number := i
      question_text := question_text
      question_type := "General"
      generated_answer := none
      confidence_score := none
      answer_status := AnswerStatus.PROCESSING }
  match env.answer_question question_text company_id with
  | .ok answer_result =>
    ({ question with
         generated_answer := some answer_result.answer
         confidence_score := some answer_result.confidence_score
         answer_status := AnswerStatus.ANSWERED },
     answer_result.chunk_ids.filterMap (fun cid =>
       (env.find_document_for_chunk cid).map (fun did =>
         ({ question_number := i
            document_id := did
            relevance_score := answer_result.confidence_score
            chunk_ids := [cid] } : QuestionDocumentMatch))))
  | .error _ => ({ question with answer_status := AnswerStatus.FAILED }, [])

/-- The per-question loop over the extracted question texts, numbering from
i; a failure on one question never stops the traversal. -/
def process_questions (env : RfpEnv) (company_id : String)
    (rfp_document_id : Nat) :
    Nat → List String → List ExtractedQuestion × List QuestionDocumentMatch
  | _, [] => ([], [])
  | i, q :: qs =>
    let first := answer_one env company_id rfp_document_id i q
    let rest := process_questions env company_id rfp_document_id (i + 1) qs
    (first.1 :: rest.1, first.2 ++ rest.2)

/-- RfpService.process_rfp / process_rfp_sync: set PROCESSING with a start
timestamp, extract text and questions (a raise in either fails the whole RFP
with the error text and creates no questions), record extraction score and
question count, run the per-question loop numbering from 1, finally set
COMPLETED with an end timestamp. -/
def process_rfp (env : RfpEnv) (rfp : RfpDocument) (now : Nat) :
    RfpDocument × List ExtractedQuestion × List QuestionDocumentMatch :=
  let rfp :=
    { rfp with
        processing_status := ProcessingStatus.PROCESSING
        processing_started_at := some now }
  match env.extract_text with
  | .error e =>
    ({ rfp with
         processing_status := ProcessingStatus.FAILED
         error_message := some e }, [], [])
  | .ok file_content =>
    match env.extract_questions file_content with
    | .error e =>
      ({ rfp with
           processing_status := ProcessingStatus.FAILED
           error_message := some e }, [], [])
    | .ok extraction_result =>
      let rfp :=
        { rfp with
            extraction_score := some extraction_result.confidence_score
            questions_count := some extraction_result.questions.length }
      let loop :=
        process_questions env rfp.company_id rfp.id 1 extraction_result.questions
      ({ rfp with
           processing_status := ProcessingStatus.COMPLETED
           processing_completed_at := some now },
       loop.1, loop.2)

end RfpService

/-! ## Claim C1: credential verification and error propagation -/

/-- C1 counterexample: with the stored hash "" (not a well-formed bcrypt
hash) the bcrypt check raises, and verify_api_key propagates that error
instead of returning the boolean false, so the claim that verification never
propagates an error fails at this concrete input. -/
theorem verify_api_key_malformed_hash_raises :
    verify_api_key (fun _ _ => false) "candidate" "" = Except.error "Invalid salt" ∧
    verify_api_key (fun _ _ => false) "candidate" "" ≠ Except.ok false :=
  ⟨rfl, fun h => Except.noConfusion h⟩

/-- C1 (amended): for a well-formed stored bcrypt hash, verify_api_key
returns the boolean computed by the bcrypt check; for a malformed stored
hash, the bcrypt error propagates to the caller, because verify_api_key has
no exception handling of its own. -/
theorem verify_api_key_spec (m : String → String → Bool)
    (plain hashed : String) :
    (isWellFormedBcryptHash hashed = true →
      verify_api_key m plain hashed = Except.ok (m plain hashed)) ∧
    (isWellFormedBcryptHash hashed = false →
      verify_api_key m plain hashed = Except.error "Invalid salt") := by
  constructor <;> intro h <;> simp [verify_api_key, bcrypt_checkpw, h]

/-- Witness for verify_api_key_spec at a concrete well-formed stored hash. -/
theorem verify_api_key_spec_witness :
    verify_api_key (fun _ _ => true) "key"
      "$2b$12$aaaaaaaaaaaaaaaaaaaaaaaaaaaaaaaaaaaaaaaaaaaaaaaaaaaaa" =
      Except.ok true :=
  (verify_api_key_spec (fun _ _ => true) "key"
    "$2b$12$aaaaaaaaaaaaaaaaaaaaaaaaaaaaaaaaaaaaaaaaaaaaaaaaaaaaa").1 (by decide)

/-! ## Claims C10, C6, C7: file-save validation order, the size limit, and
the upload response -/

/-- Any error raised by the type validation is one of its two 400 responses,
neither of which is the file-too-large error. -/
theorem validate_file_type_error_cases (file : UploadFile) (e : HTTPException)
    (h : validate_file_type file = Except.error e) :
    e = ⟨400, "File type not allowed. Allowed types: PDF, DOCX, DOC"⟩ ∨
    e = ⟨400, "File extension not allowed. Allowed extensions: .pdf, .docx, .doc"⟩ := by
  unfold validate_file_type at h
  split at h
  · injection h with h'
    exact Or.inl h'.symm
  · split at h
    · split at h
      · injection h with h'
        exact Or.inr h'.symm
      · exact Except.noConfusion h
    · exact Except.noConfusion h

/-- C10: in save_file the size check runs strictly before the type check: an
oversize file is rejected with the size error whatever its declared type or
extension, and a rejection with any other error implies the size was within
the limit. -/
theorem save_file_size_checked_first (file : UploadFile)
    (company_id doc_id : String) :
    (MAX_FILE_SIZE < file.content.length →
      save_file file company_id doc_id =
        Except.error ⟨400, "File too large. Maximum size: 10MB"⟩) ∧
    (∀ e : HTTPException, save_file file company_id doc_id = Except.error e →
      e.detail ≠ "File too large. Maximum size: 10MB" →
      file.content.length ≤ MAX_FILE_SIZE) := by
  have hsize : MAX_FILE_SIZE < file.content.length →
      save_file file company_id doc_id =
        Except.error ⟨400, "File too large. Maximum size: 10MB"⟩ := by
    intro h
    simp [save_file, validate_file_size, h]
  refine ⟨hsize, ?_⟩
  intro e he hd
  by_contra hgt
  push_neg at hgt
  rw [hsize hgt] at he
  injection he with h'
  rw [← h'] at hd
  exact hd rfl

/-- Witness for save_file_size_checked_first: a 10,485,761-byte file with a
disallowed declared type and extension is rejected with the size error. -/
theorem save_file_size_checked_first_witness :
    save_file ⟨some "a.exe", some "text/plain", List.replicate 10485761 0⟩ "c" "d" =
      Except.error ⟨400, "File too large. Maximum size: 10MB"⟩ :=
  (save_file_size_checked_first
      ⟨some "a.exe", some "text/plain", List.replicate 10485761 0⟩ "c" "d").1
    (by norm_num [MAX_FILE_SIZE])

/-- C6: save_file rejects with the file-too-large 400 error exactly when the
byte size strictly exceeds 10,485,760; a file of exactly 10,485,760 bytes
passing type validation is accepted; for a file one byte larger the upload
operation rejects and creates no document row. -/
theorem save_file_size_limit (file : UploadFile) (company_id doc_id : String)
    (db : List CompanyDocument) (new_pk now : Nat) :
    (save_file file company_id doc_id =
        Except.error ⟨400, "File too large. Maximum size: 10MB"⟩ ↔
      10485760 < file.content.length) ∧
    (file.content.length = 10485760 → validate_file_type file = Except.ok () →
      (save_file file company_id doc_id).isOk = true) ∧
    (file.content.length = 10485761 →
      (DocumentService.upload_document db company_id file doc_id new_pk now).1 = db ∧
      (DocumentService.upload_document db company_id file doc_id new_pk now).2.2 =
        Except.error ⟨400, "File too large. Maximum size: 10MB"⟩) := by
  have hM : MAX_FILE_SIZE = 10485760 := rfl
  by_cases hgt : 10485760 < file.content.length
  · have hs : save_file file company_id doc_id =
        Except.error ⟨400, "File too large. Maximum size: 10MB"⟩ :=
      (save_file_size_checked_first file company_id doc_id).1 (by omega)
    refine ⟨⟨fun _ => hgt, fun _ => hs⟩, ?_, ?_⟩
    · intro h1
      exfalso
      omega
    · intro h1
      constructor
      · simp [DocumentService.upload_document, hs]
      · simp [DocumentService.upload_document, hs]
  · have hnot : ¬ (file.content.length > MAX_FILE_SIZE) := by omega
    have hv : validate_file_size file.content.length = Except.ok () := by
      unfold validate_file_size
      rw [if_neg hnot]
    refine ⟨⟨?_, ?_⟩, ?_, ?_⟩
    · intro h
      exfalso
      cases hvt : validate_file_type file with
      | ok u =>
        rw [show save_file file company_id doc_id = Except.ok
              ("uploads/" ++ company_id ++ "/" ++ (doc_id ++
                (match file.filename with
                 | some fn => strToLower (pathSuffix fn)
                 | none => "")), file.content.length) from by
            simp [save_file, hv, hvt]] at h
        exact Except.noConfusion h
      | error e =>
        rw [show save_file file company_id doc_id = Except.error e from by
            simp [save_file, hv, hvt]] at h
        injection h with h'
        rcases validate_file_type_error_cases file e hvt with h2 | h2 <;>
          rw [h2] at h' <;> exact absurd h' (by decide)
    · intro h
      omega
    · intro h1 ht
      simp [save_file, hv, ht, Except.isOk, Except.toBool]
    · intro h1
      exfalso
      omega

/-- Witness for save_file_size_limit: a file of exactly 10,485,760 bytes with
an allowed declared type and extension is accepted. -/
theorem save_file_size_limit_witness :
    (save_file ⟨some "a.pdf", some "application/pdf", List.replicate 10485760 0⟩
        "c" "d").isOk = true :=
  (save_file_size_limit
      ⟨some "a.pdf", some "application/pdf", List.replicate 10485760 0⟩
      "c" "d" [] 0 0).2.1 (List.length_replicate 10485760 0) rfl

/-- C7: on a successful reference-document upload, the row is inserted with
status PENDING, then set to PROCESSING with a start timestamp and committed,
all before the response step, and the response reports status PROCESSING,
never PENDING; the stored row ends PROCESSING with the start timestamp. -/
theorem upload_document_responds_processing (db : List CompanyDocument)
    (company_id : String) (file : UploadFile) (doc_id : String)
    (new_pk now : Nat) (file_path : String) (file_size : Nat)
    (h : save_file file company_id doc_id = Except.ok (file_path, file_size)) :
    ((DocumentService.upload_document db company_id file doc_id new_pk now).2.1 =
      [DbEvent.addDocument ProcessingStatus.PENDING, DbEvent.flush,
       DbEvent.setStatus ProcessingStatus.PROCESSING, DbEvent.commit,
       DbEvent.enqueueProcessTask, DbEvent.respond ProcessingStatus.PROCESSING]) ∧
    (∀ resp : DocumentUploadResponse,
      (DocumentService.upload_document db company_id file doc_id new_pk now).2.2 =
        Except.ok resp →
      resp.status = ProcessingStatus.PROCESSING ∧
      resp.status ≠ ProcessingStatus.PENDING) ∧
    (∃ d : CompanyDocument,
      (DocumentService.upload_document db company_id file doc_id new_pk now).1 =
        db ++ [d] ∧
      d.processing_status = ProcessingStatus.PROCESSING ∧
      d.processing_started_at = some now) ∧
    ((DocumentService.upload_document db company_id file doc_id new_pk now).2.2).isOk
      = true := by
  unfold DocumentService.upload_document
  rw [h]
  refine ⟨rfl, ?_, ⟨_, rfl, rfl, rfl⟩, rfl⟩
  intro resp hr
  injection hr with h'
  rw [← h']
  exact ⟨rfl, fun hc => ProcessingStatus.noConfusion hc⟩

/-- Witness for upload_document_responds_processing at a concrete one-byte
PDF upload. -/
theorem upload_document_responds_processing_witness :
    (DocumentService.upload_document []
        "c" ⟨some "a.pdf", some "application/pdf", [0]⟩ "d" 1 5).2.1 =
      [DbEvent.addDocument ProcessingStatus.PENDING, DbEvent.flush,
       DbEvent.setStatus ProcessingStatus.PROCESSING, DbEvent.commit,
       DbEvent.enqueueProcessTask, DbEvent.respond ProcessingStatus.PROCESSING] :=
  (upload_document_responds_processing []
      "c" ⟨some "a.pdf", some "application/pdf", [0]⟩ "d" 1 5
      "uploads/c/d.pdf" 1 rfl).1

/-! ## Claim C2: the manual reprocess operation -/

/-- C2 counterexample: for a COMPLETED document carrying an error message,
the reprocess trace enqueues the new processing job before the PROCESSING
status update and its commit, not after the commit as the claim orders the
steps. -/
theorem process_document_enqueues_before_commit :
    (DocumentService.process_document
        ⟨7, "doc_x", "c", "f.pdf", "pdf", 3, "p", ProcessingStatus.COMPLETED,
         some 1, some 2, 5, some "boom"⟩ [⟨7, 0, "a"⟩, ⟨8, 0, "b"⟩] 42).2.2.1 =
      [DbEvent.deleteChunks, DbEvent.resetChunkCount, DbEvent.clearErrorMessage,
       DbEvent.enqueueProcessTask, DbEvent.setStatus ProcessingStatus.PROCESSING,
       DbEvent.commit, DbEvent.respond ProcessingStatus.PROCESSING] ∧
    (DocumentService.process_document
        ⟨7, "doc_x", "c", "f.pdf", "pdf", 3, "p", ProcessingStatus.COMPLETED,
         some 1, some 2, 5, some "boom"⟩ [⟨7, 0, "a"⟩, ⟨8, 0, "b"⟩] 42).2.2.1 ≠
      [DbEvent.deleteChunks, DbEvent.resetChunkCount, DbEvent.clearErrorMessage,
       DbEvent.setStatus ProcessingStatus.PROCESSING, DbEvent.commit,
       DbEvent.enqueueProcessTask, DbEvent.respond ProcessingStatus.PROCESSING] := by
  constructor
  · rfl
  · decide

/-- C2 (amended): for a document whose status is COMPLETED or FAILED, manual
reprocessing deletes the document's chunk rows, resets its chunk count to 0,
clears any prior error text, then enqueues a new Document Processing Job,
then sets status PROCESSING with a fresh start timestamp and commits (the
job is enqueued before the status update and the commit), and returns the
refreshed PROCESSING status. -/
theorem process_document_reprocess_spec (document : CompanyDocument)
    (chunks : List DocumentChunk) (now : Nat)
    (h : document.processing_status = ProcessingStatus.COMPLETED ∨
         document.processing_status = ProcessingStatus.FAILED) :
    (DocumentService.process_document document chunks now).2.2.1 =
      [DbEvent.deleteChunks, DbEvent.resetChunkCount] ++
      (if document.error_message.isSome then [DbEvent.clearErrorMessage] else []) ++
      [DbEvent.enqueueProcessTask, DbEvent.setStatus ProcessingStatus.PROCESSING,
       DbEvent.commit, DbEvent.respond ProcessingStatus.PROCESSING] ∧
    (DocumentService.process_document document chunks now).1.chunk_count = 0 ∧
    (DocumentService.process_document document chunks now).1.error_message = none ∧
    (DocumentService.process_document document chunks now).1.processing_status =
      ProcessingStatus.PROCESSING ∧
    (DocumentService.process_document document chunks now).1.processing_started_at =
      some now ∧
    (DocumentService.process_document document chunks now).2.1 =
      chunks.filter (fun c => c.document_id ≠ document.id) ∧
    (DocumentService.process_document document chunks now).2.2.2 =
      ProcessingStatus.PROCESSING := by
  have hne : document.processing_status ≠ ProcessingStatus.PROCESSING := by
    rcases h with h | h <;> rw [h] <;>
      exact fun hc => ProcessingStatus.noConfusion hc
  unfold DocumentService.process_document
  rw [if_neg hne]
  simp only [if_pos h]
  cases he : document.error_message <;> simp [he]

/-- Witness for process_document_reprocess_spec: reprocessing a concrete
FAILED document resets its chunk count. -/
theorem process_document_reprocess_spec_witness :
    (DocumentService.process_document
        ⟨7, "doc_y", "c", "f.pdf", "pdf", 3, "p", ProcessingStatus.FAILED,
         some 1, some 2, 5, some "boom"⟩ [⟨7, 0, "a"⟩] 42).1.chunk_count = 0 :=
  (process_document_reprocess_spec
      ⟨7, "doc_y", "c", "f.pdf", "pdf", 3, "p", ProcessingStatus.FAILED,
       some 1, some 2, 5, some "boom"⟩ [⟨7, 0, "a"⟩] 42 (Or.inr rfl)).2.1

/-! ## Claim C5: company registration -/

/-- C5: registering an existing name fails with a 409 and performs no write
(in particular, a table with exactly one row of that name still has exactly
one); registering a new name appends exactly one active Company whose stored
credential is the hash of the fresh token, returning id, name, and the
plaintext token. -/
theorem register_company_spec (hash_api_key : String → String)
    (db : List Company) (companyName api_key : String) (new_pk : Nat) :
    ((AuthService.get_company_by_name db companyName).isSome = true →
      (AuthService.register_company hash_api_key db companyName api_key new_pk).1 = db ∧
      (AuthService.register_company hash_api_key db companyName api_key new_pk).2 =
        Except.error ⟨409, "Company with this name already exists"⟩ ∧
      (db.countP (fun c => c.name == companyName) = 1 →
        (AuthService.register_company hash_api_key db companyName api_key new_pk).1.countP
          (fun c => c.name == companyName) = 1)) ∧
    (AuthService.get_company_by_name db companyName = none →
      (AuthService.register_company hash_api_key db companyName api_key new_pk).1 =
        db ++ [⟨new_pk, companyName, hash_api_key api_key, true⟩] ∧
      (AuthService.register_company hash_api_key db companyName api_key new_pk).2 =
        Except.ok ⟨new_pk, companyName, api_key⟩) := by
  constructor
  · intro hs
    cases hf : AuthService.get_company_by_name db companyName with
    | none => rw [hf] at hs; exact Bool.noConfusion hs
    | some c =>
      unfold AuthService.register_company
      rw [hf]
      exact ⟨rfl, rfl, fun h1 => h1⟩
  · intro hf
    unfold AuthService.register_company
    rw [hf]
    exact ⟨rfl, rfl⟩

/-- Witness for register_company_spec: registering a fresh name on an empty
table appends that one company and returns the plaintext token. -/
theorem register_company_spec_witness :
    (AuthService.register_company (fun s => s ++ "#h") [] "Acme" "tok" 1).1 =
      [⟨1, "Acme", "tok#h", true⟩] ∧
    (AuthService.register_company (fun s => s ++ "#h") [] "Acme" "tok" 1).2 =
      Except.ok ⟨1, "Acme", "tok"⟩ :=
  (register_company_spec (fun s => s ++ "#h") [] "Acme" "tok" 1).2 rfl

/-! ## Claims C8 and C9: the Document Processing Job -/

/-- C8: the job raises (becoming eligible for retry) only when the indexing
boundary raised unexpectedly; a missing document yields the structured
not-found result without raising or writing, and empty extracted text marks
the document FAILED with an explanatory message and returns a failure result
without raising. -/
theorem process_document_task_spec (document : Option CompanyDocument)
    (extracted_text : Option String)
    (index_document : Except String (List String)) (now : Nat) :
    (document = none →
      DocumentTasks.process_document none extracted_text index_document now =
        (none, [], TaskOutcome.completed (AsyncResult.errorResult "Document not found"))) ∧
    (∀ d : CompanyDocument, document = some d →
      (extracted_text = none ∨ extracted_text = some "") →
      (DocumentTasks.process_document document extracted_text index_document now).2.2 =
        TaskOutcome.completed (AsyncResult.errorResult "Text extraction failed") ∧
      ∃ d' : CompanyDocument,
        (DocumentTasks.process_document document extracted_text index_document now).1 =
          some d' ∧
        d'.processing_status = ProcessingStatus.FAILED ∧
        d'.error_message = some "Failed to extract text from document") ∧
    (∀ e : String,
      (DocumentTasks.process_document document extracted_text index_document now).2.2 =
        TaskOutcome.retry e →
      index_document = Except.error e ∧ document ≠ none ∧
      extracted_text ≠ none ∧ extracted_text ≠ some "") := by
  refine ⟨?_, ?_, ?_⟩
  · intro h
    rfl
  · intro d hd hext
    subst hd
    unfold DocumentTasks.process_document DocumentTasks.process_document_async
    dsimp only
    rw [if_pos hext]
    exact ⟨rfl, _, rfl, rfl, rfl⟩
  · intro e hr
    cases document with
    | none =>
      exact absurd hr (by simp [DocumentTasks.process_document,
        DocumentTasks.process_document_async])
    | some d =>
      by_cases hext : extracted_text = none ∨ extracted_text = some ""
      · rw [show (DocumentTasks.process_document (some d) extracted_text
            index_document now).2.2 =
              TaskOutcome.completed (AsyncResult.errorResult "Text extraction failed")
            from by
          unfold DocumentTasks.process_document DocumentTasks.process_document_async
          dsimp only
          rw [if_pos hext]] at hr
        exact TaskOutcome.noConfusion hr
      · push_neg at hext
        cases hidx : index_document with
        | ok ids =>
          rw [show (DocumentTasks.process_document (some d) extracted_text
              index_document now).2.2 =
                TaskOutcome.completed (AsyncResult.success ids.length ids) from by
            unfold DocumentTasks.process_document DocumentTasks.process_document_async
            dsimp only
            rw [if_neg (by push_neg; exact hext), hidx]] at hr
          exact TaskOutcome.noConfusion hr
        | error e' =>
          rw [show (DocumentTasks.process_document (some d) extracted_text
              index_document now).2.2 = TaskOutcome.retry e' from by
            unfold DocumentTasks.process_document DocumentTasks.process_document_async
            dsimp only
            rw [if_neg (by push_neg; exact hext), hidx]] at hr
          injection hr with h'
          exact ⟨congrArg Except.error h', fun hc => Option.noConfusion hc, hext.1, hext.2⟩

/-- Witness for process_document_task_spec: the not-found case returns the
structured error result without retrying. -/
theorem process_document_task_spec_witness :
    DocumentTasks.process_document none (some "text") (Except.ok ["c1"]) 3 =
      (none, [], TaskOutcome.completed (AsyncResult.errorResult "Document not found")) :=
  (process_document_task_spec none (some "text") (Except.ok ["c1"]) 3).1 rfl

/-- C9: on a successful run, the job creates one chunk row per id returned by
the indexing boundary, with chunk_index equal to the id's zero-based position
(so the indexes are exactly 0..count-1), and sets the document's chunk_count
to the number of chunk rows created. -/
theorem process_document_chunk_indexes (d : CompanyDocument) (t : String)
    (ids : List String) (now : Nat) (ht : t ≠ "") :
    (DocumentTasks.process_document (some d) (some t) (Except.ok ids) now).2.1.map
        (fun c => c.chunk_index) = List.range ids.length ∧
    (DocumentTasks.process_document (some d) (some t) (Except.ok ids) now).2.1.map
        (fun c => c.chunk_id) = ids ∧
    (DocumentTasks.process_document (some d) (some t) (Except.ok ids) now).2.1.length =
      ids.length ∧
    (∃ d' : CompanyDocument,
      (DocumentTasks.process_document (some d) (some t) (Except.ok ids) now).1 =
        some d' ∧
      d'.chunk_count = ids.length ∧
      d'.processing_status = ProcessingStatus.COMPLETED) := by
  have hext : ¬ ((some t : Option String) = none ∨ (some t : Option String) = some "") := by
    rintro (hc | hc)
    · exact Option.noConfusion hc
    · exact ht (Option.some.inj hc)
  unfold DocumentTasks.process_document DocumentTasks.process_document_async
  dsimp only
  rw [if_neg hext]
  refine ⟨?_, ?_, ?_, _, rfl, rfl, rfl⟩
  · rw [List.map_map]
    exact List.enum_map_fst ids
  · rw [List.map_map]
    exact List.enum_map_snd ids
  · rw [List.length_map, List.enum_length]

/-- Witness for process_document_chunk_indexes on a concrete two-chunk run. -/
theorem process_document_chunk_indexes_witness :
    (DocumentTasks.process_document
        (some ⟨7, "doc_z", "c", "f.pdf", "pdf", 3, "p", ProcessingStatus.PROCESSING,
               some 1, none, 0, none⟩)
        (some "text") (Except.ok ["c1", "c2"]) 9).2.1.map
      (fun c => c.chunk_index) = List.range 2 :=
  (process_document_chunk_indexes
      ⟨7, "doc_z", "c", "f.pdf", "pdf", 3, "p", ProcessingStatus.PROCESSING,
       some 1, none, 0, none⟩
      "text" ["c1", "c2"] 9 (by simp)).1

/-! ## Claims C3 and C4: the RFP processing pipeline -/

/-- One loop iteration: the produced row keeps the ordinal, text and type it
was created with, and its status is determined solely by its own answering
call. -/
theorem answer_one_spec (env : RfpEnv) (company_id : String)
    (rfp_document_id i : Nat) (question_text : String) :
    (RfpService.answer_one env company_id rfp_document_id i question_text).1.question_number = i ∧
    (RfpService.answer_one env company_id rfp_document_id i question_text).1.question_text =
      question_text ∧
    (RfpService.answer_one env company_id rfp_document_id i question_text).1.question_type =
      "General" ∧
    (RfpService.answer_one env company_id rfp_document_id i question_text).1.answer_status =
      (match env.answer_question question_text company_id with
       | .ok _ => AnswerStatus.ANSWERED
       | .error _ => AnswerStatus.FAILED) := by
  unfold RfpService.answer_one
  cases h : env.answer_question question_text company_id <;> simp

/-- Loop invariants of the per-question traversal: one row per question text,
ordinals consecutive from the start index, every row typed "General", and
every row's status decided by its own answering call alone. -/
theorem process_questions_invariants (env : RfpEnv) (company_id : String)
    (rfp_document_id : Nat) (qs : List String) :
    ∀ i : Nat,
      (RfpService.process_questions env company_id rfp_document_id i qs).1.length =
        qs.length ∧
      (RfpService.process_questions env company_id rfp_document_id i qs).1.map
        (fun q => q.question_number) = List.range' i qs.length ∧
      (RfpService.process_questions env company_id rfp_document_id i qs).1.map
        (fun q => q.question_text) = qs ∧
      (∀ q ∈ (RfpService.process_questions env company_id rfp_document_id i qs).1,
        q.question_type = "General" ∧
        q.answer_status =
          (match env.answer_question q.question_text company_id with
           | .ok _ => AnswerStatus.ANSWERED
           | .error _ => AnswerStatus.FAILED)) := by
  induction qs with
  | nil =>
    intro i
    refine ⟨rfl, rfl, rfl, ?_⟩
    intro q hq
    exact absurd hq (List.not_mem_nil q)
  | cons q qs ih =>
    intro i
    obtain ⟨ih1, ih2, ih3, ih4⟩ := ih (i + 1)
    obtain ⟨ha1, ha2, ha3, ha4⟩ :=
      answer_one_spec env company_id rfp_document_id i q
    unfold RfpService.process_questions
    dsimp only
    refine ⟨?_, ?_, ?_, ?_⟩
    · simpa using ih1
    · rw [List.map_cons, ih2, ha1, List.length_cons, List.range'_succ]
    · rw [List.map_cons, ih3, ha2]
    · intro r hr
      rcases List.mem_cons.mp hr with hr | hr
      · subst hr
        exact ⟨ha3, by rw [ha2]; exact ha4⟩
      · exact ih4 r hr

/-- C3: when text extraction and question extraction succeed, a failure of an
individual answering call only marks that question FAILED and the loop
continues: all extracted questions are processed, every row whose answering
call succeeded ends ANSWERED, every row whose call raised ends FAILED, and
the RFP itself still ends COMPLETED. -/
theorem process_rfp_question_failure_isolated (env : RfpEnv)
    (rfp : RfpDocument) (now : Nat) (t : String) (er : ExtractionResult)
    (h1 : env.extract_text = Except.ok t)
    (h2 : env.extract_questions t = Except.ok er) :
    (RfpService.process_rfp env rfp now).1.processing_status =
      ProcessingStatus.COMPLETED ∧
    (RfpService.process_rfp env rfp now).2.1.length = er.questions.length ∧
    (∀ q ∈ (RfpService.process_rfp env rfp now).2.1,
      (∀ ar : AnswerResult,
        env.answer_question q.question_text rfp.company_id = Except.ok ar →
        q.answer_status = AnswerStatus.ANSWERED) ∧
      (∀ e : String,
        env.answer_question q.question_text rfp.company_id = Except.error e →
        q.answer_status = AnswerStatus.FAILED)) := by
  obtain ⟨hl, _, _, hst⟩ :=
    process_questions_invariants env rfp.company_id rfp.id er.questions 1
  unfold RfpService.process_rfp
  rw [h1]
  dsimp only
  rw [h2]
  dsimp only
  refine ⟨rfl, hl, ?_⟩
  intro q hq
  obtain ⟨_, hstq⟩ := hst q hq
  constructor
  · intro ar har
    rw [hstq, har]
  · intro e he
    rw [hstq, he]

/-- Witness for process_rfp_question_failure_isolated: a concrete run whose
second question's answering call raises still completes the RFP. -/
theorem process_rfp_question_failure_isolated_witness :
    (RfpService.process_rfp
        ⟨Except.ok "txt",
         fun _ => Except.ok ⟨["Q1", "Q2"], 1⟩,
         fun q _ => if q == "Q1" then Except.ok ⟨"A", 1, []⟩ else Except.error "boom",
         fun _ => none⟩
        ⟨1, "rfp_x", "c", ProcessingStatus.PENDING, none, none, none, none, none⟩
        0).1.processing_status = ProcessingStatus.COMPLETED :=
  (process_rfp_question_failure_isolated
      ⟨Except.ok "txt",
       fun _ => Except.ok ⟨["Q1", "Q2"], 1⟩,
       fun q _ => if q == "Q1" then Except.ok ⟨"A", 1, []⟩ else Except.error "boom",
       fun _ => none⟩
      ⟨1, "rfp_x", "c", ProcessingStatus.PENDING, none, none, none, none, none⟩
      0 "txt" ⟨["Q1", "Q2"], 1⟩ rfl rfl).1

/-- C4: when question extraction returns N question strings, the pipeline
creates exactly N question rows, numbered 1..N in extraction order, all of
type "General", with the RFP's question count set to N — for every answering
behaviour, so the numbering is independent of which questions fail. -/
theorem process_rfp_question_numbering (env : RfpEnv)
    (rfp : RfpDocument) (now : Nat) (t : String) (er : ExtractionResult)
    (h1 : env.extract_text = Except.ok t)
    (h2 : env.extract_questions t = Except.ok er) :
    (RfpService.process_rfp env rfp now).2.1.map (fun q => q.question_number) =
      List.range' 1 er.questions.length ∧
    (RfpService.process_rfp env rfp now).2.1.map (fun q => q.question_text) =
      er.questions ∧
    (∀ q ∈ (RfpService.process_rfp env rfp now).2.1,
      q.question_type = "General") ∧
    (RfpService.process_rfp env rfp now).1.questions_count =
      some er.questions.length := by
  obtain ⟨_, hnum, htext, hst⟩ :=
    process_questions_invariants env rfp.company_id rfp.id er.questions 1
  unfold RfpService.process_rfp
  rw [h1]
  dsimp only
  rw [h2]
  dsimp only
  exact ⟨hnum, htext, fun q hq => (hst q hq).1, rfl⟩

/-- Witness for process_rfp_question_numbering: with two extracted questions
of which one fails to answer, the rows are numbered 1, 2. -/
theorem process_rfp_question_numbering_witness :
    (RfpService.process_rfp
        ⟨Except.ok "txt",
         fun _ => Except.ok ⟨["Q1", "Q2"], 1⟩,
         fun q _ => if q == "Q2" then Except.error "boom" else Except.ok ⟨"A", 1, []⟩,
         fun _ => none⟩
        ⟨1, "rfp_y", "c", ProcessingStatus.PENDING, none, none, none, none, none⟩
        0).2.1.map (fun q => q.question_number) = List.range' 1 2 :=
  (process_rfp_question_numbering
      ⟨Except.ok "txt",
       fun _ => Except.ok ⟨["Q1", "Q2"], 1⟩,
       fun q _ => if q == "Q2" then Except.error "boom" else Except.ok ⟨"A", 1, []⟩,
       fun _ => none⟩
      ⟨1, "rfp_y", "c", ProcessingStatus.PENDING, none, none, none, none, none⟩
      0 "txt" ⟨["Q1", "Q2"], 1⟩ rfl rfl).1

end RfpPlatform

